import Mathlib

/-!
Verification development for the docql query compiler: a shallow embedding of
the AST data model, identifier validation, the fluent builder, structural
validation, and the four dialect renderers (mongodb, dynamodb, firestore,
couchdb), with theorems settling the specification claims.

Modelling conventions:
* Go strings are Lean `String`s; rune loops become `List Char` recursions.
* Go `nil`-able pointers and interfaces become `Option`.
* Go `(T, error)` returns become `Except String T`.
* Go maps are represented by association lists in one iteration order; Go's
  map iteration order is unspecified, so two association lists that are
  permutations of one another represent the same Go map value.  Go map
  assignment `m[k] = v` is `jset` (overwrite the key if present, else append).
* Rendered queries are kept as structured JSON values (`JValue`); Go's
  `json.Marshal` (which cannot fail on these values and serializes map keys
  in sorted order) is left implicit, so `QueryResult.json` holds the
  structured document rather than its serialized bytes.
-/

namespace Docql

/-- Collection reference (internal/types). -/
structure Collection where
  name : String
deriving DecidableEq, Repr

/-- Field reference with a dot-separated path (internal/types). -/
structure Field where
  path : String
  collection : String := ""
deriving DecidableEq, Repr

/-- Named bind-parameter placeholder (internal/types). -/
structure Param where
  name : String
deriving DecidableEq, Repr

/-- Go type `FilterOperator` is a string type. -/
abbrev FilterOperator := String

/-- Go type `LogicOperator` is a string type. -/
abbrev LogicOperator := String

/-- Go type `UpdateOperator` is a string type. -/
abbrev UpdateOperator := String

/-- Go type `Operation` is a string type. -/
abbrev Operation := String

/-- Go type `SortOrder` is an int (Ascending = 1, Descending = -1). -/
abbrev SortOrder := Int

def FilterOp.EQ : FilterOperator := "$eq"

def FilterOp.NE : FilterOperator := "$ne"

def FilterOp.GT : FilterOperator := "$gt"

def FilterOp.GTE : FilterOperator := "$gte"

def FilterOp.LT : FilterOperator := "$lt"

def FilterOp.LTE : FilterOperator := "$lte"

def FilterOp.IN : FilterOperator := "$in"

def FilterOp.NotIn : FilterOperator := "$nin"

def FilterOp.Exists : FilterOperator := "$exists"

def FilterOp.Type : FilterOperator := "$type"

def FilterOp.Regex : FilterOperator := "$regex"

def FilterOp.Text : FilterOperator := "$text"

def FilterOp.All : FilterOperator := "$all"

def FilterOp.ElemMatch : FilterOperator := "$elemMatch"

def FilterOp.Size : FilterOperator := "$size"

def FilterOp.Near : FilterOperator := "$near"

def LogicOp.AND : LogicOperator := "$and"

def LogicOp.OR : LogicOperator := "$or"

def LogicOp.NOR : LogicOperator := "$nor"

def LogicOp.NOT : LogicOperator := "$not"

def UpdateOp.Set : UpdateOperator := "$set"

def UpdateOp.Unset : UpdateOperator := "$unset"

def UpdateOp.Inc : UpdateOperator := "$inc"

def UpdateOp.Mul : UpdateOperator := "$mul"

def UpdateOp.AddToSet : UpdateOperator := "$addToSet"

def UpdateOp.Pull : UpdateOperator := "$pull"

def UpdateOp.Push : UpdateOperator := "$push"

def Op.Find : Operation := "FIND"

def Op.FindOne : Operation := "FIND_ONE"

def Op.Insert : Operation := "INSERT"

def Op.InsertMany : Operation := "INSERT_MANY"

def Op.Update : Operation := "UPDATE"

def Op.UpdateMany : Operation := "UPDATE_MANY"

def Op.Delete : Operation := "DELETE"

def Op.DeleteMany : Operation := "DELETE_MANY"

def Op.Aggregate : Operation := "AGGREGATE"

def Op.Count : Operation := "COUNT"

def Op.Distinct : Operation := "DISTINCT"

def Ascending : SortOrder := 1

def Descending : SortOrder := -1

/-- Complexity limits (internal/types/operator.go). -/
def MaxFilterDepth : Nat := 10

def MaxBatchSize : Nat := 1000

def MaxLimit : Int := 10000

def MaxProjectionFields : Nat := 100

def MaxSortFields : Nat := 10

def MaxPipelineStages : Nat := 50

/-- Geographic coordinate pair (internal/types/filter.go). -/
structure GeoPoint where
  lon : Param
  lat : Param
deriving DecidableEq, Repr

/-- The closed polymorphic `FilterItem` set (internal/types/filter.go):
`FilterCondition`, `FilterGroup`, `RangeFilter`, `RegexFilter`,
`TextSearchFilter`, `GeoFilter`, `ArrayFilter`, `ElemMatchFilter`,
`ExistsFilter`. -/
inductive FilterItem where
  | condition (field : Field) (operator : FilterOperator) (value : Param)
  | group (logic : LogicOperator) (conditions : List FilterItem)
  | range (field : Field) (minVal maxVal : Option Param)
      (minExclusive maxExclusive : Bool)
  | regex (field : Field) (pattern : Param) (options : Option Param)
  | textSearch (search : Param) (language : Option Param)
      (caseSensitive diacriticSensitive : Bool)
  | geo (field : Field) (operator : FilterOperator) (center : GeoPoint)
      (radius maxDistance minDistance : Option Param)
  | arrayF (field : Field) (operator : FilterOperator) (value : Param)
  | elemMatch (field : Field) (conditions : List FilterItem)
  | existsF (field : Field) (flag : Bool)
deriving Repr

/-- $elemMatch inside a projection (internal/types). -/
structure ElemMatchProjection where
  conditions : List FilterItem
deriving Repr

/-- $slice projection (internal/types). -/
structure SliceOp where
  count : Param
  skip : Option Param
deriving Repr

/-- A single field in a projection (internal/types). -/
structure ProjectionField where
  field : Field
  includeF : Bool
  slice : Option SliceOp := none
  elemMatchP : Option ElemMatchProjection := none
deriving Repr

/-- Field selection for query results (internal/types). -/
structure Projection where
  fields : List ProjectionField
  exclude : Bool
deriving Repr

/-- A single sort specification (internal/types). -/
structure SortClause where
  field : Field
  order : SortOrder
deriving DecidableEq, Repr

/-- A skip or limit value, static or parameterized (internal/types). -/
structure PaginationValue where
  static : Option Int := none
  param : Option Param := none
deriving DecidableEq, Repr

/-- Insert payload: Go `map[Field]Param`, represented in one iteration
order (internal/types/update.go). -/
structure Document where
  fields : List (Field × Param)
deriving DecidableEq, Repr

/-- An update operator with its Go `map[Field]Param` field map
(internal/types/update.go). -/
structure UpdateOperation where
  operator : UpdateOperator
  fields : List (Field × Param)
deriving DecidableEq, Repr

/-- Aggregation expressions (internal/types/aggregate.go). -/
inductive Expression where
  | fieldExpr (field : Field)
  | literal (value : Param)
  | operatorExpr (operator : String) (args : List Expression)
  | conditional (condIf condThen condElse : Expression)
deriving Repr

/-- Group accumulator; `expr` is a nil-able Go interface
(internal/types/aggregate.go). -/
structure Accumulator where
  operator : String
  expr : Option Expression := none
deriving Repr

/-- Aggregation pipeline stages (internal/types/aggregate.go).  Go maps in
stages are association lists in one iteration order. -/
inductive PipelineStage where
  | matchStage (filter : FilterItem)
  | projectStage (projection : Projection) (computed : List (String × Expression))
  | groupStage (id : Option Expression) (accumulators : List (String × Accumulator))
  | sortStage (sorts : List SortClause)
  | limitStage (limit : PaginationValue)
  | skipStage (skip : PaginationValue)
  | unwindStage (path : Field) (includeArrayIndex : Option String)
      (preserveNullAndEmptyArrays : Bool)
  | lookupStage (fromColl : String) (localField foreignField : Field)
      (asName : String)
  | addFieldsStage (fields : List (String × Expression))
  | replaceRootStage (newRoot : Option Expression)
  | countStage (fieldName : String)
deriving Repr

/-- The root AST entity (internal/types/ast.go).  Unset Go fields default to
their zero values. -/
structure DocumentAST where
  operation : Operation
  target : Collection
  filterClause : Option FilterItem := none
  projection : Option Projection := none
  sortClauses : List SortClause := []
  skip : Option PaginationValue := none
  limit : Option PaginationValue := none
  documents : List Document := []
  updateOps : List UpdateOperation := []
  upsert : Bool := false
  pipeline : List PipelineStage := []
  distinctField : Option Field := none
deriving Repr

/-! ## Identifier validation (instance.go) -/

def squoteChar : Char := Char.ofNat 39

def dquoteChar : Char := Char.ofNat 34

def backquoteChar : Char := Char.ofNat 96

def backslashChar : Char := Char.ofNat 92

/-- `strings.HasPrefix`-style test: does `s` start with `pat`? -/
def leadsWith : List Char → List Char → Bool
  | [], _ => true
  | _ :: _, [] => false
  | p :: ps, c :: cs => p = c && leadsWith ps cs

/-- `strings.Contains s pat`: does `pat` occur as a contiguous run in `s`? -/
def goContains (s pat : List Char) : Bool :=
  match s with
  | [] => leadsWith pat []
  | c :: rest => leadsWith pat (c :: rest) || goContains rest pat

/-- ASCII lowering as `strings.ToLower` acts on the characters in play. -/
def goLowerChar (c : Char) : Char :=
  if 'A' ≤ c ∧ c ≤ 'Z' then Char.ofNat (c.toNat + 32) else c

/-- The module-scope injection denylist (instance.go `suspiciousPatterns`):
`;`, `--`, `/*`, `*/`, the three quote characters, backslash, and the
keyword fragments, each keyword carrying a trailing space. -/
def suspiciousPatterns : List (List Char) :=
  [[';'], ['-', '-'], ['/', '*'], ['*', '/'],
   [squoteChar], [dquoteChar], [backquoteChar], [backslashChar],
   (" or ").data, (" and ").data, ("drop ").data, ("delete ").data,
   ("insert ").data, ("update ").data, ("select ").data, ("union ").data,
   ("exec ").data, ("execute ").data]

/-- First character of an identifier: alphabetic or underscore. -/
def isFirstIdentChar (c : Char) : Bool :=
  ('a' ≤ c && c ≤ 'z') || ('A' ≤ c && c ≤ 'Z') || c = '_'

/-- Subsequent identifier characters: alphanumeric or underscore. -/
def isIdentChar (c : Char) : Bool :=
  ('a' ≤ c && c ≤ 'z') || ('A' ≤ c && c ≤ 'Z') || ('0' ≤ c && c ≤ '9') || c = '_'

/-- The `for i, r := range s` loop of `isValidIdentifier`. -/
def identCharsOk : List Char → Bool
  | [] => true
  | c :: rest => isFirstIdentChar c && rest.all isIdentChar

/-- instance.go `isValidIdentifier`: empty check, explicit space rejection,
per-character allowlist, then the lower-cased denylist scan. -/
def isValidIdentifier (s : String) : Bool :=
  let cs := s.data
  if cs.isEmpty then false
  else if goContains cs [' '] then false
  else if !identCharsOk cs then false
  else suspiciousPatterns.all fun p => !goContains (cs.map goLowerChar) p

/-- instance.go `TryP`: parameter construction with error handling (schema
lookup is not involved for parameters). -/
def tryP (name : String) : Except String Param :=
  if !isValidIdentifier name then
    .error ("invalid parameter name: " ++ name)
  else
    .ok ⟨name⟩

/-! ## Structural validation (internal/types/ast.go) -/

mutual

/-- ast.go `validateFilterDepth`: depth bound, recursing only through
`FilterGroup` and `ElemMatchFilter`. -/
def validateFilterDepth (f : FilterItem) (depth : Nat) : Except String Unit :=
  if depth > MaxFilterDepth then
    .error ("filter nesting exceeds maximum depth: " ++ toString depth ++
      " > " ++ toString MaxFilterDepth)
  else
    match f with
    | .group _ cs => validateFilterDepthList cs (depth + 1)
    | .elemMatch _ cs => validateFilterDepthList cs (depth + 1)
    | _ => .ok ()

/-- The child loop of `validateFilterDepth`. -/
def validateFilterDepthList (cs : List FilterItem) (depth : Nat) :
    Except String Unit :=
  match cs with
  | [] => .ok ()
  | c :: rest =>
    match validateFilterDepth c depth with
    | .error e => .error e
    | .ok _ => validateFilterDepthList rest depth

end

def DocumentAST.validateFind (ast : DocumentAST) : Except String Unit :=
  if (ast.limit.bind PaginationValue.static).any (fun n => decide (n > MaxLimit)) then
    .error "limit exceeds maximum"
  else if (ast.projection.map fun p => p.fields.length).any
      (fun l => decide (l > MaxProjectionFields)) then
    .error "projection fields exceed maximum"
  else if ast.sortClauses.length > MaxSortFields then
    .error "sort fields exceed maximum"
  else
    match ast.filterClause with
    | some f => validateFilterDepth f 0
    | none => .ok ()

def DocumentAST.validateInsert (ast : DocumentAST) : Except String Unit :=
  if ast.documents.length ≠ 1 then
    .error "INSERT requires exactly one document"
  else .ok ()

def DocumentAST.validateInsertMany (ast : DocumentAST) : Except String Unit :=
  if ast.documents.length = 0 then
    .error "INSERT_MANY requires at least one document"
  else if ast.documents.length > MaxBatchSize then
    .error "batch size exceeds maximum"
  else .ok ()

def DocumentAST.validateUpdate (ast : DocumentAST) : Except String Unit :=
  if ast.updateOps.length = 0 then
    .error "UPDATE requires at least one update operation"
  else .ok ()

def DocumentAST.validateUpdateMany (ast : DocumentAST) : Except String Unit :=
  if ast.updateOps.length = 0 then
    .error "UPDATE_MANY requires at least one update operation"
  else if ast.filterClause.isNone then
    .error "UPDATE_MANY requires a filter for safety"
  else .ok ()

def DocumentAST.validateDelete (_ast : DocumentAST) : Except String Unit :=
  .ok ()

def DocumentAST.validateDeleteMany (ast : DocumentAST) : Except String Unit :=
  if ast.filterClause.isNone then
    .error "DELETE_MANY requires a filter for safety"
  else .ok ()

def DocumentAST.validateAggregate (ast : DocumentAST) : Except String Unit :=
  if ast.pipeline.length = 0 then
    .error "AGGREGATE requires at least one pipeline stage"
  else if ast.pipeline.length > MaxPipelineStages then
    .error "pipeline stages exceed maximum"
  else .ok ()

def DocumentAST.validateCount (_ast : DocumentAST) : Except String Unit :=
  .ok ()

def DocumentAST.validateDistinct (ast : DocumentAST) : Except String Unit :=
  if ast.distinctField.isNone then
    .error "DISTINCT requires a field"
  else .ok ()

/-- ast.go `Validate`: target check then dispatch on the operation. -/
def validate (ast : DocumentAST) : Except String Unit :=
  if ast.target.name = "" then
    .error "target collection is required"
  else if ast.operation = Op.Find ∨ ast.operation = Op.FindOne then
    ast.validateFind
  else if ast.operation = Op.Insert then ast.validateInsert
  else if ast.operation = Op.InsertMany then ast.validateInsertMany
  else if ast.operation = Op.Update then ast.validateUpdate
  else if ast.operation = Op.UpdateMany then ast.validateUpdateMany
  else if ast.operation = Op.Delete then ast.validateDelete
  else if ast.operation = Op.DeleteMany then ast.validateDeleteMany
  else if ast.operation = Op.Aggregate then ast.validateAggregate
  else if ast.operation = Op.Count then ast.validateCount
  else if ast.operation = Op.Distinct then ast.validateDistinct
  else .error ("unsupported operation: " ++ ast.operation)

/-! ## Builder (builder.go) -/

/-- Fluent query builder: the AST under construction plus the sticky first
construction error. -/
structure Builder where
  ast : DocumentAST
  err : Option String := none
deriving Repr

/-- builder.go `Find`. -/
def Find (c : Collection) : Builder :=
  { ast := { operation := Op.Find, target := c } }

/-- builder.go `FindOne`. -/
def FindOne (c : Collection) : Builder :=
  { ast := { operation := Op.FindOne, target := c } }

/-- builder.go `Insert` (documents start empty). -/
def Insert (c : Collection) : Builder :=
  { ast := { operation := Op.Insert, target := c, documents := [] } }

/-- builder.go `InsertMany`. -/
def InsertMany (c : Collection) : Builder :=
  { ast := { operation := Op.InsertMany, target := c, documents := [] } }

/-- builder.go `Update`. -/
def Update (c : Collection) : Builder :=
  { ast := { operation := Op.Update, target := c, updateOps := [] } }

/-- builder.go `UpdateMany`. -/
def UpdateMany (c : Collection) : Builder :=
  { ast := { operation := Op.UpdateMany, target := c, updateOps := [] } }

/-- builder.go `Delete`. -/
def Delete (c : Collection) : Builder :=
  { ast := { operation := Op.Delete, target := c } }

/-- builder.go `DeleteMany`. -/
def DeleteMany (c : Collection) : Builder :=
  { ast := { operation := Op.DeleteMany, target := c } }

/-- builder.go `Aggregate`. -/
def Aggregate (c : Collection) : Builder :=
  { ast := { operation := Op.Aggregate, target := c, pipeline := [] } }

/-- builder.go `Count`. -/
def Count (c : Collection) : Builder :=
  { ast := { operation := Op.Count, target := c } }

/-- builder.go `Distinct`. -/
def Distinct (c : Collection) (field : Field) : Builder :=
  { ast := { operation := Op.Distinct, target := c, distinctField := some field } }

/-- builder.go `isReadOperation`. -/
def Builder.isReadOperation (b : Builder) : Bool :=
  b.ast.operation = Op.Find || b.ast.operation = Op.FindOne ||
  b.ast.operation = Op.Aggregate || b.ast.operation = Op.Count ||
  b.ast.operation = Op.Distinct

/-- builder.go `isUpdateOperation`. -/
def Builder.isUpdateOperation (b : Builder) : Bool :=
  b.ast.operation = Op.Update || b.ast.operation = Op.UpdateMany

/-- Go map assignment `m[field] = value` on a `map[Field]Param`: overwrite an
existing key, otherwise add the entry. -/
def mapSetFieldParam (m : List (Field × Param)) (f : Field) (v : Param) :
    List (Field × Param) :=
  match m with
  | [] => [(f, v)]
  | (f0, v0) :: rest =>
    if f0 = f then (f0, v) :: rest else (f0, v0) :: mapSetFieldParam rest f v

/-- builder.go `addOrMergeUpdate`: merge into the first existing operation
with the same operator, else append a fresh one. -/
def addOrMergeUpdate (ops : List UpdateOperation) (op : UpdateOperator)
    (field : Field) (value : Param) : List UpdateOperation :=
  match ops with
  | [] => [{ operator := op, fields := [(field, value)] }]
  | o :: rest =>
    if o.operator = op then
      { operator := o.operator, fields := mapSetFieldParam o.fields field value } :: rest
    else
      o :: addOrMergeUpdate rest op field value

/-- builder.go `Filter`: first call sets the clause, later calls wrap the
existing clause and the new one in an AND group. -/
def Builder.filter (b : Builder) (f : FilterItem) : Builder :=
  match b.err with
  | some _ => b
  | none =>
    match b.ast.filterClause with
    | none => { b with ast := { b.ast with filterClause := some f } }
    | some existing =>
      { b with ast := { b.ast with
          filterClause := some (.group LogicOp.AND [existing, f]) } }

/-- builder.go `Where`: alias for `Filter`. -/
def Builder.where (b : Builder) (f : FilterItem) : Builder :=
  b.filter f

/-- builder.go `Sort`. -/
def Builder.sort (b : Builder) (field : Field) (order : SortOrder) : Builder :=
  match b.err with
  | some _ => b
  | none =>
    if !b.isReadOperation then
      { b with err := some "Sort() can only be used with read operations" }
    else
      { b with ast := { b.ast with
          sortClauses := b.ast.sortClauses ++ [{ field := field, order := order }] } }

/-- builder.go `Skip`. -/
def Builder.skip (b : Builder) (n : Int) : Builder :=
  match b.err with
  | some _ => b
  | none =>
    if !b.isReadOperation then
      { b with err := some "Skip() can only be used with read operations" }
    else
      { b with ast := { b.ast with skip := some { static := some n } } }

/-- builder.go `Limit`: read-only guard, then the MaxLimit bound. -/
def Builder.limit (b : Builder) (n : Int) : Builder :=
  match b.err with
  | some _ => b
  | none =>
    if !b.isReadOperation then
      { b with err := some "Limit() can only be used with read operations" }
    else if n > MaxLimit then
      { b with err := some ("limit exceeds maximum: " ++ toString n ++ " > " ++
          toString MaxLimit) }
    else
      { b with ast := { b.ast with limit := some { static := some n } } }

/-- builder.go `LimitParam`. -/
def Builder.limitParam (b : Builder) (p : Param) : Builder :=
  match b.err with
  | some _ => b
  | none =>
    if !b.isReadOperation then
      { b with err := some "LimitParam() can only be used with read operations" }
    else
      { b with ast := { b.ast with limit := some { param := some p } } }

/-- builder.go `Document`: append one insert payload. -/
def Builder.document (b : Builder) (doc : Document) : Builder :=
  match b.err with
  | some _ => b
  | none =>
    if b.ast.operation ≠ Op.Insert ∧ b.ast.operation ≠ Op.InsertMany then
      { b with err := some "Document() can only be used with INSERT operations" }
    else
      { b with ast := { b.ast with documents := b.ast.documents ++ [doc] } }

/-- builder.go `Set`. -/
def Builder.set (b : Builder) (field : Field) (value : Param) : Builder :=
  match b.err with
  | some _ => b
  | none =>
    if !b.isUpdateOperation then
      { b with err := some "Set() can only be used with UPDATE operations" }
    else
      { b with ast := { b.ast with
          updateOps := addOrMergeUpdate b.ast.updateOps UpdateOp.Set field value } }

/-- builder.go `Inc`. -/
def Builder.inc (b : Builder) (field : Field) (value : Param) : Builder :=
  match b.err with
  | some _ => b
  | none =>
    if !b.isUpdateOperation then
      { b with err := some "Inc() can only be used with UPDATE operations" }
    else
      { b with ast := { b.ast with
          updateOps := addOrMergeUpdate b.ast.updateOps UpdateOp.Inc field value } }

/-- builder.go `Unset` (a single field; Go loops this over its varargs). -/
def Builder.unset (b : Builder) (field : Field) : Builder :=
  match b.err with
  | some _ => b
  | none =>
    if !b.isUpdateOperation then
      { b with err := some "Unset() can only be used with UPDATE operations" }
    else
      { b with ast := { b.ast with
          updateOps := addOrMergeUpdate b.ast.updateOps UpdateOp.Unset field ⟨""⟩ } }

/-- builder.go `Upsert`. -/
def Builder.upsert (b : Builder) : Builder :=
  match b.err with
  | some _ => b
  | none =>
    if !b.isUpdateOperation then
      { b with err := some "Upsert() can only be used with UPDATE operations" }
    else
      { b with ast := { b.ast with upsert := true } }

/-- builder.go `Build`: short-circuit on a recorded error, then run
structural validation. -/
def Builder.build (b : Builder) : Except String DocumentAST :=
  match b.err with
  | some e => .error e
  | none =>
    match validate b.ast with
    | .error e => .error e
    | .ok _ => .ok b.ast

/-! ## JSON-shaped output documents -/

/-- JSON-shaped query documents as built by the renderers before
`json.Marshal`. -/
inductive JValue where
  | null
  | str (s : String)
  | int (n : Int)
  | bool (b : Bool)
  | obj (entries : List (String × JValue))
  | arr (elems : List JValue)
deriving Repr

/-- Go map assignment `m[k] = v` on a `map[string]interface{}`: overwrite an
existing key, otherwise add the entry. -/
def jset (m : List (String × JValue)) (k : String) (v : JValue) :
    List (String × JValue) :=
  match m with
  | [] => [(k, v)]
  | (k0, v0) :: rest =>
    if k0 = k then (k0, v) :: rest else (k0, v0) :: jset rest k v

/-- The key set of a rendered object. -/
def JValue.objKeys : JValue → List String
  | .obj entries => entries.map Prod.fst
  | _ => []

/-- internal/types/result.go `QueryResult`; `json` holds the structured
document that Go serializes with `json.Marshal`. -/
structure QueryResult where
  json : JValue
  requiredParams : List String
deriving Repr

/-! ## MongoDB renderer (pkg/mongodb) -/

namespace mongodb

/-- pkg/mongodb `toResult`: `json.Marshal` cannot fail on these documents. -/
def toResult (query : List (String × JValue)) (params : List String) :
    Except String QueryResult :=
  .ok ⟨.obj query, params⟩

mutual

/-- pkg/mongodb `renderFilter`: recursive lowering of every `FilterItem`
variant, appending referenced parameter names along the way. -/
def renderFilter (f : FilterItem) (params : List String) :
    Except String (JValue × List String) :=
  match f with
  | .condition field operator value =>
    let params := if value.name ≠ "" then params ++ [value.name] else params
    .ok (.obj [(field.path, .obj [(operator, .str (":" ++ value.name))])], params)
  | .group logic conditions =>
    match renderFilterList conditions params [] with
    | .error e => .error e
    | .ok (rendered, params) => .ok (.obj [(logic, .arr rendered)], params)
  | .range field minVal maxVal minExclusive maxExclusive =>
    let (rangeFilter, params) :=
      match minVal with
      | some mn =>
        ([((if minExclusive then "$gt" else "$gte"), JValue.str (":" ++ mn.name))],
          params ++ [mn.name])
      | none => (([] : List (String × JValue)), params)
    let (rangeFilter, params) :=
      match maxVal with
      | some mx =>
        (jset rangeFilter (if maxExclusive then "$lt" else "$lte")
          (JValue.str (":" ++ mx.name)), params ++ [mx.name])
      | none => (rangeFilter, params)
    .ok (.obj [(field.path, .obj rangeFilter)], params)
  | .regex field pattern options =>
    let params := params ++ [pattern.name]
    let regexFilter := [("$regex", JValue.str (":" ++ pattern.name))]
    match options with
    | some o =>
      .ok (.obj [(field.path,
        .obj (jset regexFilter "$options" (.str (":" ++ o.name))))],
        params ++ [o.name])
    | none => .ok (.obj [(field.path, .obj regexFilter)], params)
  | .existsF field flag =>
    .ok (.obj [(field.path, .obj [("$exists", .bool flag)])], params)
  | .geo field operator center radius _ _ =>
    let params := params ++ [center.lon.name] ++ [center.lat.name]
    let geoQuery := [("$geometry", JValue.obj
      [("type", .str "Point"),
       ("coordinates", .arr [.str (":" ++ center.lon.name),
         .str (":" ++ center.lat.name)])])]
    let (geoQuery, params) :=
      match radius with
      | some r =>
        (jset geoQuery "$maxDistance" (.str (":" ++ r.name)), params ++ [r.name])
      | none => (geoQuery, params)
    .ok (.obj [(field.path, .obj [(operator, .obj geoQuery)])], params)
  | .arrayF field operator value =>
    .ok (.obj [(field.path, .obj [(operator, .str (":" ++ value.name))])],
      params ++ [value.name])
  | .elemMatch field conditions =>
    match renderElemMatchConds conditions params [] with
    | .error e => .error e
    | .ok (merged, params) =>
      .ok (.obj [(field.path, .obj [("$elemMatch", .obj merged)])], params)
  | .textSearch search language caseSensitive diacriticSensitive =>
    let params := params ++ [search.name]
    let textQuery := [("$search", JValue.str (":" ++ search.name))]
    let (textQuery, params) :=
      match language with
      | some l => (jset textQuery "$language" (.str (":" ++ l.name)), params ++ [l.name])
      | none => (textQuery, params)
    let textQuery :=
      if caseSensitive then jset textQuery "$caseSensitive" (.bool true) else textQuery
    let textQuery :=
      if diacriticSensitive then jset textQuery "$diacriticSensitive" (.bool true)
      else textQuery
    .ok (.obj [("$text", .obj textQuery)], params)

/-- The `FilterGroup` child loop of `renderFilter`. -/
def renderFilterList (cs : List FilterItem) (params : List String)
    (acc : List JValue) : Except String (List JValue × List String) :=
  match cs with
  | [] => .ok (acc, params)
  | c :: rest =>
    match renderFilter c params with
    | .error e => .error e
    | .ok (rendered, params) => renderFilterList rest params (acc ++ [rendered])

/-- The `ElemMatchFilter` child loop of `renderFilter`: rendered child
objects are merged key-by-key into one conditions map. -/
def renderElemMatchConds (cs : List FilterItem) (params : List String)
    (acc : List (String × JValue)) :
    Except String (List (String × JValue) × List String) :=
  match cs with
  | [] => .ok (acc, params)
  | c :: rest =>
    match renderFilter c params with
    | .error e => .error e
    | .ok (rendered, params) =>
      let acc :=
        match rendered with
        | .obj m => m.foldl (fun a kv => jset a kv.1 kv.2) acc
        | _ => acc
      renderElemMatchConds rest params acc

end

/-- pkg/mongodb `renderProjection`. -/
def renderProjection (p : Projection) : JValue :=
  .obj (p.fields.foldl
    (fun acc f =>
      jset acc f.field.path (if f.includeF then JValue.int 1 else JValue.int 0))
    [])

/-- pkg/mongodb `renderDocument`: ranges over the document's field map,
parameterizing every value. -/
def renderDocument (doc : Document) (params : List String) :
    List (String × JValue) × List String :=
  doc.fields.foldl
    (fun acc fv => (jset acc.1 fv.1.path (.str (":" ++ fv.2.name)),
      acc.2 ++ [fv.2.name]))
    ([], params)

/-- The per-operator field map loop inside pkg/mongodb `renderUpdateOps`. -/
def renderUpdateOpFields (fields : List (Field × Param)) (params : List String) :
    List (String × JValue) × List String :=
  fields.foldl
    (fun acc fv =>
      if fv.2.name ≠ "" then
        (jset acc.1 fv.1.path (.str (":" ++ fv.2.name)), acc.2 ++ [fv.2.name])
      else
        (jset acc.1 fv.1.path (.str ""), acc.2))
    ([], params)

/-- pkg/mongodb `renderUpdateOps`. -/
def renderUpdateOps (ops : List UpdateOperation) (params : List String) :
    List (String × JValue) × List String :=
  ops.foldl
    (fun acc op =>
      let (fields, params) := renderUpdateOpFields op.fields acc.2
      (jset acc.1 op.operator (.obj fields), params))
    ([], params)

mutual

/-- pkg/mongodb `renderExpression` on a non-nil expression. -/
def renderExpressionCore (e : Expression) (params : List String) :
    JValue × List String :=
  match e with
  | .fieldExpr field => (.str ("$" ++ field.path), params)
  | .literal value => (.str (":" ++ value.name), params ++ [value.name])
  | .operatorExpr operator args =>
    let (vals, params) := renderExpressionList args params []
    (.obj [(operator, .arr vals)], params)
  | .conditional condIf condThen condElse =>
    let (vi, params) := renderExpressionCore condIf params
    let (vt, params) := renderExpressionCore condThen params
    let (ve, params) := renderExpressionCore condElse params
    (.obj [("$cond", .obj [("if", vi), ("then", vt), ("else", ve)])], params)

/-- The `OperatorExpression` argument loop of `renderExpression`. -/
def renderExpressionList (es : List Expression) (params : List String)
    (acc : List JValue) : List JValue × List String :=
  match es with
  | [] => (acc, params)
  | e :: rest =>
    let (v, params) := renderExpressionCore e params
    renderExpressionList rest params (acc ++ [v])

end

/-- pkg/mongodb `renderExpression`: a nil Go expression renders as null. -/
def renderExpression (expr : Option Expression) (params : List String) :
    JValue × List String :=
  match expr with
  | none => (.null, params)
  | some e => renderExpressionCore e params

/-- The static/param/absent rendering of a `$limit` or `$skip` stage value. -/
def paginationValueJ (pv : PaginationValue) (params : List String) :
    JValue × List String :=
  match pv.static with
  | some n => (.int n, params)
  | none =>
    match pv.param with
    | some p => (.str (":" ++ p.name), params ++ [p.name])
    | none => (.null, params)

/-- pkg/mongodb `renderPipelineStage`. -/
def renderPipelineStage (stage : PipelineStage) (params : List String) :
    Except String (JValue × List String) :=
  match stage with
  | .matchStage filter =>
    match renderFilter filter params with
    | .error e => .error e
    | .ok (f, params) => .ok (.obj [("$match", f)], params)
  | .projectStage projection _ =>
    .ok (.obj [("$project", renderProjection projection)], params)
  | .groupStage id accumulators =>
    let (idVal, params) := renderExpression id params
    let group := jset [] "_id" idVal
    let (group, params) := accumulators.foldl
      (fun acc na =>
        let (v, params) := renderExpression na.2.expr acc.2
        (jset acc.1 na.1 (.obj [(na.2.operator, v)]), params))
      (group, params)
    .ok (.obj [("$group", .obj group)], params)
  | .sortStage sorts =>
    .ok (.obj [("$sort", .obj (sorts.foldl
      (fun acc sc => jset acc sc.field.path (.int sc.order)) []))], params)
  | .limitStage limit =>
    let (v, params) := paginationValueJ limit params
    .ok (.obj [("$limit", v)], params)
  | .skipStage skip =>
    let (v, params) := paginationValueJ skip params
    .ok (.obj [("$skip", v)], params)
  | .unwindStage path includeArrayIndex preserveNullAndEmptyArrays =>
    let unwind := [("path", JValue.str ("$" ++ path.path))]
    let unwind :=
      match includeArrayIndex with
      | some s => jset unwind "includeArrayIndex" (.str s)
      | none => unwind
    let unwind :=
      if preserveNullAndEmptyArrays then
        jset unwind "preserveNullAndEmptyArrays" (.bool true)
      else unwind
    .ok (.obj [("$unwind", .obj unwind)], params)
  | .lookupStage fromColl localField foreignField asName =>
    .ok (.obj [("$lookup", .obj
      [("from", .str fromColl), ("localField", .str localField.path),
       ("foreignField", .str foreignField.path), ("as", .str asName)])], params)
  | .addFieldsStage fields =>
    let (fs, params) := fields.foldl
      (fun acc ne =>
        let (v, params) := renderExpressionCore ne.2 acc.2
        (jset acc.1 ne.1 v, params))
      ([], params)
    .ok (.obj [("$addFields", .obj fs)], params)
  | .countStage fieldName => .ok (.obj [("$count", .str fieldName)], params)
  | _ => .error "unsupported pipeline stage"

/-- Render a filter clause, or the empty filter object when absent (the
shared `if ast.FilterClause != nil` pattern of the query renderers). -/
def filterOrEmpty (fc : Option FilterItem) (params : List String) :
    Except String (JValue × List String) :=
  match fc with
  | some f => renderFilter f params
  | none => .ok (.obj [], params)

/-- pkg/mongodb `renderFind`. -/
def renderFind (ast : DocumentAST) (params : List String) :
    Except String QueryResult :=
  let query := jset (jset [] "collection" (.str ast.target.name))
    "operation" (.str ast.operation)
  match filterOrEmpty ast.filterClause params with
  | .error e => .error e
  | .ok (filterVal, params) =>
    let query := jset query "filter" filterVal
    let query :=
      match ast.projection with
      | some p => jset query "projection" (renderProjection p)
      | none => query
    let query :=
      if !ast.sortClauses.isEmpty then
        jset query "sort" (.obj (ast.sortClauses.foldl
          (fun acc s => jset acc s.field.path (.int s.order)) []))
      else query
    let (query, params) :=
      match ast.skip with
      | none => (query, params)
      | some v =>
        match v.static with
        | some n => (jset query "skip" (.int n), params)
        | none =>
          match v.param with
          | some p => (jset query "skip" (.str (":" ++ p.name)), params ++ [p.name])
          | none => (query, params)
    let (query, params) :=
      match ast.limit with
      | none => (query, params)
      | some v =>
        match v.static with
        | some n => (jset query "limit" (.int n), params)
        | none =>
          match v.param with
          | some p => (jset query "limit" (.str (":" ++ p.name)), params ++ [p.name])
          | none => (query, params)
    toResult query params

/-- pkg/mongodb `renderInsert`: collection, operation, and (when present)
the first document — nothing else. -/
def renderInsert (ast : DocumentAST) (params : List String) :
    Except String QueryResult :=
  let query := jset (jset [] "collection" (.str ast.target.name))
    "operation" (.str ast.operation)
  match ast.documents with
  | [] => toResult query params
  | doc :: _ =>
    let (d, params) := renderDocument doc params
    toResult (jset query "document" (.obj d)) params

/-- The document loop of pkg/mongodb `renderInsertMany`. -/
def renderDocumentList (docs : List Document) (params : List String)
    (acc : List JValue) : List JValue × List String :=
  match docs with
  | [] => (acc, params)
  | d :: rest =>
    let (dv, params) := renderDocument d params
    renderDocumentList rest params (acc ++ [.obj dv])

/-- pkg/mongodb `renderInsertMany`. -/
def renderInsertMany (ast : DocumentAST) (params : List String) :
    Except String QueryResult :=
  let query := jset (jset [] "collection" (.str ast.target.name))
    "operation" (.str ast.operation)
  let (docs, params) := renderDocumentList ast.documents params []
  toResult (jset query "documents" (.arr docs)) params

/-- pkg/mongodb `renderUpdate` (also used for UPDATE_MANY). -/
def renderUpdate (ast : DocumentAST) (params : List String) :
    Except String QueryResult :=
  let query := jset (jset [] "collection" (.str ast.target.name))
    "operation" (.str ast.operation)
  match filterOrEmpty ast.filterClause params with
  | .error e => .error e
  | .ok (filterVal, params) =>
    let query := jset query "filter" filterVal
    let (updateFields, params) := renderUpdateOps ast.updateOps params
    let query := jset query "update" (.obj updateFields)
    let query := if ast.upsert then jset query "upsert" (.bool true) else query
    toResult query params

/-- pkg/mongodb `renderDelete` (also used for DELETE_MANY). -/
def renderDelete (ast : DocumentAST) (params : List String) :
    Except String QueryResult :=
  let query := jset (jset [] "collection" (.str ast.target.name))
    "operation" (.str ast.operation)
  match filterOrEmpty ast.filterClause params with
  | .error e => .error e
  | .ok (filterVal, params) =>
    toResult (jset query "filter" filterVal) params

/-- The stage loop of pkg/mongodb `renderAggregate`. -/
def renderPipelineList (stages : List PipelineStage) (params : List String)
    (acc : List JValue) : Except String (List JValue × List String) :=
  match stages with
  | [] => .ok (acc, params)
  | s :: rest =>
    match renderPipelineStage s params with
    | .error e => .error e
    | .ok (v, params) => renderPipelineList rest params (acc ++ [v])

/-- pkg/mongodb `renderAggregate`. -/
def renderAggregate (ast : DocumentAST) (params : List String) :
    Except String QueryResult :=
  let query := jset (jset [] "collection" (.str ast.target.name))
    "operation" (.str ast.operation)
  match renderPipelineList ast.pipeline params [] with
  | .error e => .error e
  | .ok (stages, params) => toResult (jset query "pipeline" (.arr stages)) params

/-- pkg/mongodb `renderCount`. -/
def renderCount (ast : DocumentAST) (params : List String) :
    Except String QueryResult :=
  let query := jset (jset [] "collection" (.str ast.target.name))
    "operation" (.str ast.operation)
  match filterOrEmpty ast.filterClause params with
  | .error e => .error e
  | .ok (filterVal, params) =>
    toResult (jset query "filter" filterVal) params

/-- pkg/mongodb `renderDistinct`.  Go dereferences `ast.DistinctField`
unconditionally; the nil case (a runtime panic, unreachable after
validation) is modelled as an error. -/
def renderDistinct (ast : DocumentAST) (params : List String) :
    Except String QueryResult :=
  match ast.distinctField with
  | none => .error "panic: nil DistinctField"
  | some df =>
    let query := jset (jset (jset [] "collection" (.str ast.target.name))
      "operation" (.str ast.operation)) "field" (.str df.path)
    match ast.filterClause with
    | some f =>
      match renderFilter f params with
      | .error e => .error e
      | .ok (filterVal, params) => toResult (jset query "filter" filterVal) params
    | none => toResult query params

/-- pkg/mongodb `Render`: revalidate, then dispatch on the operation. -/
def Render (ast : DocumentAST) : Except String QueryResult :=
  match validate ast with
  | .error e => .error ("invalid AST: " ++ e)
  | .ok _ =>
    if ast.operation = Op.Find ∨ ast.operation = Op.FindOne then renderFind ast []
    else if ast.operation = Op.Insert then renderInsert ast []
    else if ast.operation = Op.InsertMany then renderInsertMany ast []
    else if ast.operation = Op.Update then renderUpdate ast []
    else if ast.operation = Op.UpdateMany then renderUpdate ast []
    else if ast.operation = Op.Delete then renderDelete ast []
    else if ast.operation = Op.DeleteMany then renderDelete ast []
    else if ast.operation = Op.Aggregate then renderAggregate ast []
    else if ast.operation = Op.Count then renderCount ast []
    else if ast.operation = Op.Distinct then renderDistinct ast []
    else .error ("unsupported operation: " ++ ast.operation)

/-- pkg/mongodb `SupportsOperation`: MongoDB supports everything. -/
def SupportsOperation (_op : Operation) : Bool := true

/-- pkg/mongodb `SupportsFilter`. -/
def SupportsFilter (_op : FilterOperator) : Bool := true

/-- pkg/mongodb `SupportsUpdate`. -/
def SupportsUpdate (_op : UpdateOperator) : Bool := true

end mongodb

/-! ## Firestore renderer (pkg/firestore) -/

namespace firestore

/-- pkg/firestore `toResult`. -/
def toResult (query : List (String × JValue)) (params : List String) :
    Except String QueryResult :=
  .ok ⟨.obj query, params⟩

/-- pkg/firestore `mapOperator`. -/
def mapOperator (op : FilterOperator) : Except String String :=
  if op = FilterOp.EQ then .ok "=="
  else if op = FilterOp.NE then .ok "!="
  else if op = FilterOp.GT then .ok ">"
  else if op = FilterOp.GTE then .ok ">="
  else if op = FilterOp.LT then .ok "<"
  else if op = FilterOp.LTE then .ok "<="
  else if op = FilterOp.IN then .ok "in"
  else if op = FilterOp.NotIn then .ok "not-in"
  else if op = FilterOp.All then .ok "array-contains"
  else .error ("firestore does not support filter operator: " ++ op)

mutual

/-- pkg/firestore `buildWheres`: flat list of where triples; a
`FilterGroup` must carry AND logic and is flattened into its children. -/
def buildWheres (f : FilterItem) (params : List String) :
    Except String (List JValue × List String) :=
  match f with
  | .condition field operator value =>
    match mapOperator operator with
    | .error e => .error e
    | .ok op =>
      .ok ([.obj [("field", .str field.path), ("operator", .str op),
        ("value", .str (":" ++ value.name))]], params ++ [value.name])
  | .group logic conditions =>
    if logic ≠ LogicOp.AND then
      .error "firestore only supports AND logic in compound queries"
    else
      buildWheresList conditions params []
  | .range field minVal maxVal minExclusive maxExclusive =>
    let (wheres, params) :=
      match minVal with
      | some mn =>
        ([JValue.obj [("field", .str field.path),
          ("operator", .str (if minExclusive then ">" else ">=")),
          ("value", .str (":" ++ mn.name))]], params ++ [mn.name])
      | none => (([] : List JValue), params)
    let (wheres, params) :=
      match maxVal with
      | some mx =>
        (wheres ++ [JValue.obj [("field", .str field.path),
          ("operator", .str (if maxExclusive then "<" else "<=")),
          ("value", .str (":" ++ mx.name))]], params ++ [mx.name])
      | none => (wheres, params)
    .ok (wheres, params)
  | _ => .error "firestore does not support filter type"

/-- The `FilterGroup` child loop of `buildWheres`. -/
def buildWheresList (cs : List FilterItem) (params : List String)
    (acc : List JValue) : Except String (List JValue × List String) :=
  match cs with
  | [] => .ok (acc, params)
  | c :: rest =>
    match buildWheres c params with
    | .error e => .error e
    | .ok (ws, params) => buildWheresList rest params (acc ++ ws)

end

/-- pkg/firestore `renderQuery` (FIND / FIND_ONE). -/
def renderQuery (ast : DocumentAST) (params : List String) :
    Except String QueryResult :=
  let query := jset (jset [] "collection" (.str ast.target.name))
    "operation" (.str ast.operation)
  let withFilter : Except String (List (String × JValue) × List String) :=
    match ast.filterClause with
    | some f =>
      match buildWheres f params with
      | .error e => .error e
      | .ok (wheres, params) => .ok (jset query "where" (.arr wheres), params)
    | none => .ok (query, params)
  match withFilter with
  | .error e => .error e
  | .ok (query, params) =>
    let query :=
      if !ast.sortClauses.isEmpty then
        jset query "orderBy" (.arr (ast.sortClauses.map fun s =>
          JValue.obj [("field", .str s.field.path),
            ("direction", .str (if s.order = Descending then "desc" else "asc"))]))
      else query
    let (query, params) :=
      match ast.limit with
      | none => (query, params)
      | some v =>
        match v.static with
        | some n => (jset query "limit" (.int n), params)
        | none =>
          match v.param with
          | some p => (jset query "limit" (.str (":" ++ p.name)), params ++ [p.name])
          | none => (query, params)
    let (query, params) :=
      match ast.skip with
      | none => (query, params)
      | some v =>
        match v.static with
        | some n => (jset query "offset" (.int n), params)
        | none =>
          match v.param with
          | some p => (jset query "offset" (.str (":" ++ p.name)), params ++ [p.name])
          | none => (query, params)
    let query :=
      match ast.projection with
      | some p =>
        let fields := (p.fields.filter fun f => f.includeF).map fun f =>
          JValue.str f.field.path
        if !fields.isEmpty then jset query "select" (.arr fields) else query
      | none => query
    toResult query params

/-- pkg/firestore `renderAdd` (INSERT). -/
def renderAdd (ast : DocumentAST) (params : List String) :
    Except String QueryResult :=
  let query := jset (jset [] "collection" (.str ast.target.name))
    "operation" (.str ast.operation)
  match ast.documents with
  | [] => toResult query params
  | doc :: _ =>
    let (data, params) := doc.fields.foldl
      (fun acc fv => (jset acc.1 fv.1.path (.str (":" ++ fv.2.name)),
        acc.2 ++ [fv.2.name]))
      ([], params)
    toResult (jset query "data" (.obj data)) params

/-- The update-operation loop of pkg/firestore `renderUpdate`: only $set and
$unset are accepted; $unset fields render as `FieldValue.delete()`. -/
def renderUpdateData (ops : List UpdateOperation)
    (data : List (String × JValue)) (params : List String) :
    Except String (List (String × JValue) × List String) :=
  match ops with
  | [] => .ok (data, params)
  | op :: rest =>
    if op.operator ≠ UpdateOp.Set ∧ op.operator ≠ UpdateOp.Unset then
      .error ("firestore does not support update operator: " ++ op.operator)
    else
      let (data, params) := op.fields.foldl
        (fun acc fv =>
          if op.operator = UpdateOp.Unset then
            (jset acc.1 fv.1.path (.str "FieldValue.delete()"), acc.2)
          else
            (jset acc.1 fv.1.path (.str (":" ++ fv.2.name)), acc.2 ++ [fv.2.name]))
        (data, params)
      renderUpdateData rest data params

/-- pkg/firestore `renderUpdate`. -/
def renderUpdate (ast : DocumentAST) (params : List String) :
    Except String QueryResult :=
  let query := jset (jset [] "collection" (.str ast.target.name))
    "operation" (.str ast.operation)
  match renderUpdateData ast.updateOps [] params with
  | .error e => .error e
  | .ok (data, params) => toResult (jset query "data" (.obj data)) params

/-- pkg/firestore `renderDelete`. -/
def renderDelete (ast : DocumentAST) (params : List String) :
    Except String QueryResult :=
  toResult (jset (jset [] "collection" (.str ast.target.name))
    "operation" (.str ast.operation)) params

/-- pkg/firestore `SupportsOperation`. -/
def SupportsOperation (op : Operation) : Bool :=
  op = Op.Find || op = Op.FindOne || op = Op.Insert || op = Op.Update ||
  op = Op.Delete

/-- pkg/firestore `SupportsFilter`. -/
def SupportsFilter (op : FilterOperator) : Bool :=
  op = FilterOp.EQ || op = FilterOp.NE || op = FilterOp.GT ||
  op = FilterOp.GTE || op = FilterOp.LT || op = FilterOp.LTE ||
  op = FilterOp.IN || op = FilterOp.NotIn || op = FilterOp.All

/-- pkg/firestore `SupportsUpdate`. -/
def SupportsUpdate (op : UpdateOperator) : Bool :=
  op = UpdateOp.Set || op = UpdateOp.Unset

/-- pkg/firestore `Render`: revalidate, capability check, dispatch. -/
def Render (ast : DocumentAST) : Except String QueryResult :=
  match validate ast with
  | .error e => .error ("invalid AST: " ++ e)
  | .ok _ =>
    if !SupportsOperation ast.operation then
      .error ("firestore does not support operation: " ++ ast.operation)
    else if ast.operation = Op.Find ∨ ast.operation = Op.FindOne then
      renderQuery ast []
    else if ast.operation = Op.Insert then renderAdd ast []
    else if ast.operation = Op.Update then renderUpdate ast []
    else if ast.operation = Op.Delete then renderDelete ast []
    else .error ("unsupported operation: " ++ ast.operation)

end firestore

/-! ## CouchDB renderer (pkg/couchdb) -/

namespace couchdb

/-- pkg/couchdb `toResult`. -/
def toResult (query : List (String × JValue)) (params : List String) :
    Except String QueryResult :=
  .ok ⟨.obj query, params⟩

/-- pkg/couchdb `mapOperator`: empty string marks an unsupported operator. -/
def mapOperator (op : FilterOperator) : String :=
  if op = FilterOp.EQ then "$eq"
  else if op = FilterOp.NE then "$ne"
  else if op = FilterOp.GT then "$gt"
  else if op = FilterOp.GTE then "$gte"
  else if op = FilterOp.LT then "$lt"
  else if op = FilterOp.LTE then "$lte"
  else if op = FilterOp.IN then "$in"
  else if op = FilterOp.NotIn then "$nin"
  else if op = FilterOp.Regex then "$regex"
  else if op = FilterOp.Exists then "$exists"
  else ""

/-- pkg/couchdb `mapLogic`: AND, OR and NOR map to their Mango keys; every
other logic value falls through to `$and`. -/
def mapLogic (op : LogicOperator) : String :=
  if op = LogicOp.AND then "$and"
  else if op = LogicOp.OR then "$or"
  else if op = LogicOp.NOR then "$nor"
  else "$and"

mutual

/-- pkg/couchdb `buildSelector`. -/
def buildSelector (f : FilterItem) (params : List String) :
    Except String (JValue × List String) :=
  match f with
  | .condition field operator value =>
    let params := params ++ [value.name]
    let op := mapOperator operator
    if op = "" then
      .error ("CouchDB does not support filter operator: " ++ operator)
    else
      .ok (.obj [(field.path, .obj [(op, .str (":" ++ value.name))])], params)
  | .group logic conditions =>
    match buildSelectorList conditions params [] with
    | .error e => .error e
    | .ok (rendered, params) =>
      .ok (.obj [(mapLogic logic, .arr rendered)], params)
  | .range field minVal maxVal minExclusive maxExclusive =>
    let (rangeSelector, params) :=
      match minVal with
      | some mn =>
        ([((if minExclusive then "$gt" else "$gte"), JValue.str (":" ++ mn.name))],
          params ++ [mn.name])
      | none => (([] : List (String × JValue)), params)
    let (rangeSelector, params) :=
      match maxVal with
      | some mx =>
        (jset rangeSelector (if maxExclusive then "$lt" else "$lte")
          (JValue.str (":" ++ mx.name)), params ++ [mx.name])
      | none => (rangeSelector, params)
    .ok (.obj [(field.path, .obj rangeSelector)], params)
  | .regex field pattern _ =>
    .ok (.obj [(field.path, .obj [("$regex", .str (":" ++ pattern.name))])],
      params ++ [pattern.name])
  | .existsF field flag =>
    .ok (.obj [(field.path, .obj [("$exists", .bool flag)])], params)
  | _ => .error "CouchDB does not support filter type"

/-- The `FilterGroup` child loop of `buildSelector`. -/
def buildSelectorList (cs : List FilterItem) (params : List String)
    (acc : List JValue) : Except String (List JValue × List String) :=
  match cs with
  | [] => .ok (acc, params)
  | c :: rest =>
    match buildSelector c params with
    | .error e => .error e
    | .ok (rendered, params) => buildSelectorList rest params (acc ++ [rendered])

end

/-- pkg/couchdb `renderFind`: Mango query with a `selector` key. -/
def renderFind (ast : DocumentAST) (params : List String) :
    Except String QueryResult :=
  let selectorStep : Except String (JValue × List String) :=
    match ast.filterClause with
    | some f => buildSelector f params
    | none => .ok (JValue.obj [], params)
  match selectorStep with
  | .error e => .error e
  | .ok (selector, params) =>
    let query := jset [] "selector" selector
    let query :=
      match ast.projection with
      | some p =>
        let fields := (p.fields.filter fun f => f.includeF).map fun f =>
          JValue.str f.field.path
        if !fields.isEmpty then jset query "fields" (.arr fields) else query
      | none => query
    let query :=
      if !ast.sortClauses.isEmpty then
        jset query "sort" (.arr (ast.sortClauses.map fun s =>
          JValue.obj [(s.field.path,
            .str (if s.order = Descending then "desc" else "asc"))]))
      else query
    let (query, params) :=
      match ast.limit with
      | none => (query, params)
      | some v =>
        match v.static with
        | some n => (jset query "limit" (.int n), params)
        | none =>
          match v.param with
          | some p => (jset query "limit" (.str (":" ++ p.name)), params ++ [p.name])
          | none => (query, params)
    let (query, params) :=
      match ast.skip with
      | none => (query, params)
      | some v =>
        match v.static with
        | some n => (jset query "skip" (.int n), params)
        | none =>
          match v.param with
          | some p => (jset query "skip" (.str (":" ++ p.name)), params ++ [p.name])
          | none => (query, params)
    toResult query params

/-- pkg/couchdb `renderInsert`. -/
def renderInsert (ast : DocumentAST) (params : List String) :
    Except String QueryResult :=
  let query := jset [] "operation" (.str "insert")
  match ast.documents with
  | [] => toResult query params
  | doc :: _ =>
    let (d, params) := doc.fields.foldl
      (fun acc fv => (jset acc.1 fv.1.path (.str (":" ++ fv.2.name)),
        acc.2 ++ [fv.2.name]))
      ([], params)
    toResult (jset query "doc" (.obj d)) params

/-- The update-operation loop of pkg/couchdb `renderUpdate`: only $set is
accepted. -/
def renderUpdates (ops : List UpdateOperation)
    (updates : List (String × JValue)) (params : List String) :
    Except String (List (String × JValue) × List String) :=
  match ops with
  | [] => .ok (updates, params)
  | op :: rest =>
    if op.operator ≠ UpdateOp.Set then
      .error "CouchDB only supports $set updates"
    else
      let (updates, params) := op.fields.foldl
        (fun acc fv => (jset acc.1 fv.1.path (.str (":" ++ fv.2.name)),
          acc.2 ++ [fv.2.name]))
        (updates, params)
      renderUpdates rest updates params

/-- pkg/couchdb `renderUpdate`. -/
def renderUpdate (ast : DocumentAST) (params : List String) :
    Except String QueryResult :=
  let query := jset [] "operation" (.str "update")
  let withSelector : Except String (List (String × JValue) × List String) :=
    match ast.filterClause with
    | some f =>
      match buildSelector f params with
      | .error e => .error e
      | .ok (selector, params) => .ok (jset query "selector" selector, params)
    | none => .ok (query, params)
  match withSelector with
  | .error e => .error e
  | .ok (query, params) =>
    match renderUpdates ast.updateOps [] params with
    | .error e => .error e
    | .ok (updates, params) =>
      toResult (jset query "updates" (.obj updates)) params

/-- pkg/couchdb `renderDelete`. -/
def renderDelete (ast : DocumentAST) (params : List String) :
    Except String QueryResult :=
  let query := jset [] "operation" (.str "delete")
  match ast.filterClause with
  | some f =>
    match buildSelector f params with
    | .error e => .error e
    | .ok (selector, params) => toResult (jset query "selector" selector) params
  | none => toResult query params

/-- pkg/couchdb `SupportsOperation`. -/
def SupportsOperation (op : Operation) : Bool :=
  op = Op.Find || op = Op.FindOne || op = Op.Insert || op = Op.Update ||
  op = Op.Delete

/-- pkg/couchdb `SupportsFilter`. -/
def SupportsFilter (op : FilterOperator) : Bool :=
  op = FilterOp.EQ || op = FilterOp.NE || op = FilterOp.GT ||
  op = FilterOp.GTE || op = FilterOp.LT || op = FilterOp.LTE ||
  op = FilterOp.IN || op = FilterOp.NotIn || op = FilterOp.Regex ||
  op = FilterOp.Exists

/-- pkg/couchdb `SupportsUpdate`. -/
def SupportsUpdate (op : UpdateOperator) : Bool :=
  op = UpdateOp.Set

/-- pkg/couchdb `Render`: revalidate, capability check, dispatch. -/
def Render (ast : DocumentAST) : Except String QueryResult :=
  match validate ast with
  | .error e => .error ("invalid AST: " ++ e)
  | .ok _ =>
    if !SupportsOperation ast.operation then
      .error ("CouchDB does not support operation: " ++ ast.operation)
    else if ast.operation = Op.Find ∨ ast.operation = Op.FindOne then
      renderFind ast []
    else if ast.operation = Op.Insert then renderInsert ast []
    else if ast.operation = Op.Update then renderUpdate ast []
    else if ast.operation = Op.Delete then renderDelete ast []
    else .error ("unsupported operation: " ++ ast.operation)

end couchdb

/-! ## DynamoDB renderer (pkg/dynamodb) -/

namespace dynamodb

/-- pkg/dynamodb `toResult`. -/
def toResult (query : List (String × JValue)) (params : List String) :
    Except String QueryResult :=
  .ok ⟨.obj query, params⟩

/-- The mutable state shared by the `getName`/`getValue` closures of the
DynamoDB renderer: the two counters, the two attribute maps, and the
running parameter list. -/
structure DState where
  nameCounter : Nat := 0
  valueCounter : Nat := 0
  attrNames : List (String × String) := []
  attrValues : List (String × String) := []
  params : List String := []
deriving DecidableEq, Repr

/-- Go map assignment on a `map[string]string`. -/
def jsetS (m : List (String × String)) (k v : String) : List (String × String) :=
  match m with
  | [] => [(k, v)]
  | (k0, v0) :: rest =>
    if k0 = k then (k0, v) :: rest else (k0, v0) :: jsetS rest k v

/-- The `getName` closure: fresh `#nK` key bound to the field name. -/
def getName (st : DState) (field : String) : String × DState :=
  let key := "#n" ++ toString st.nameCounter
  (key, { st with
            nameCounter := st.nameCounter + 1,
            attrNames := jsetS st.attrNames key field })

/-- The `getValue` closure: fresh `:vK` key bound to the placeholder, and
the parameter name appended to the running list. -/
def getValue (st : DState) (param : String) : String × DState :=
  let key := ":v" ++ toString st.valueCounter
  (key, { st with
            valueCounter := st.valueCounter + 1,
            attrValues := jsetS st.attrValues key (":" ++ param),
            params := st.params ++ [param] })

/-- pkg/dynamodb `mapOperator`: empty string marks an unsupported operator. -/
def mapOperator (op : FilterOperator) : String :=
  if op = FilterOp.EQ then "="
  else if op = FilterOp.NE then "<>"
  else if op = FilterOp.GT then ">"
  else if op = FilterOp.GTE then ">="
  else if op = FilterOp.LT then "<"
  else if op = FilterOp.LTE then "<="
  else ""

/-- The `result = result logic exprs[i]` join of the `FilterGroup` case. -/
def joinWithLogic (exprs : List String) (logic : String) : String :=
  match exprs with
  | [] => ""
  | e :: rest => rest.foldl (fun acc x => acc ++ " " ++ logic ++ " " ++ x) e

mutual

/-- pkg/dynamodb `buildFilterExpression`: lowers conditions, groups and
existence checks into a filter-expression string. -/
def buildFilterExpression (f : FilterItem) (st : DState) :
    Except String (String × DState) :=
  match f with
  | .condition field operator value =>
    let (nameKey, st) := getName st field.path
    let (valueKey, st) := getValue st value.name
    let op := mapOperator operator
    if op = "" then
      .error ("DynamoDB does not support filter operator: " ++ operator)
    else
      .ok (nameKey ++ " " ++ op ++ " " ++ valueKey, st)
  | .group logic conditions =>
    match conditions with
    | [] => .ok ("", st)
    | _ :: _ =>
      match buildFilterExpressionList conditions st [] with
      | .error e => .error e
      | .ok (exprs, st) =>
        let logicStr := if logic = LogicOp.OR then "OR" else "AND"
        .ok (joinWithLogic exprs logicStr, st)
  | .existsF field flag =>
    let (nameKey, st) := getName st field.path
    if flag then .ok ("attribute_exists(" ++ nameKey ++ ")", st)
    else .ok ("attribute_not_exists(" ++ nameKey ++ ")", st)
  | _ => .error "DynamoDB does not support filter type"

/-- The `FilterGroup` child loop: every child expression is parenthesized. -/
def buildFilterExpressionList (cs : List FilterItem) (st : DState)
    (acc : List String) : Except String (List String × DState) :=
  match cs with
  | [] => .ok (acc, st)
  | c :: rest =>
    match buildFilterExpression c st with
    | .error e => .error e
    | .ok (expr, st) =>
      buildFilterExpressionList rest st (acc ++ ["(" ++ expr ++ ")"])

end

/-- pkg/dynamodb `renderQuery` (FIND / FIND_ONE).  Go stores the live
`attrNames`/`attrValues` maps in the query before the projection loop runs
more `getName` calls; the reference semantics mean the serialized maps hold
the final contents while their presence was decided earlier, which is
reproduced here. -/
def renderQuery (ast : DocumentAST) : Except String QueryResult :=
  let query := jset [] "TableName" (.str ast.target.name)
  let st : DState := {}
  let withFilter : Except String (List (String × JValue) × DState) :=
    match ast.filterClause with
    | some f =>
      match buildFilterExpression f st with
      | .error e => .error e
      | .ok (expr, st) => .ok (jset query "FilterExpression" (.str expr), st)
    | none => .ok (query, st)
  match withFilter with
  | .error e => .error e
  | .ok (query, st) =>
    let namesPresent := !st.attrNames.isEmpty
    let valuesPresent := !st.attrValues.isEmpty
    let (query, st) :=
      match ast.limit with
      | none => (query, st)
      | some v =>
        match v.static with
        | some n => (jset query "Limit" (.int n), st)
        | none =>
          match v.param with
          | some p => (jset query "Limit" (.str (":" ++ p.name)),
              { st with params := st.params ++ [p.name] })
          | none => (query, st)
    let (projExpr, st) :=
      match ast.projection with
      | none => ("", st)
      | some p =>
        p.fields.enum.foldl
          (fun (acc : String × DState) (ia : Nat × ProjectionField) =>
            if ia.2.includeF then
              let (nameKey, st) := getName acc.2 ia.2.field.path
              ((if ia.1 > 0 then acc.1 ++ ", " else acc.1) ++ nameKey, st)
            else acc)
          ("", st)
    let query :=
      if projExpr ≠ "" then jset query "ProjectionExpression" (.str projExpr)
      else query
    let query :=
      if namesPresent then
        jset query "ExpressionAttributeNames"
          (.obj (st.attrNames.map fun (kv : String × String) => (kv.1, JValue.str kv.2)))
      else query
    let query :=
      if valuesPresent then
        jset query "ExpressionAttributeValues"
          (.obj (st.attrValues.map fun (kv : String × String) => (kv.1, JValue.str kv.2)))
      else query
    toResult query st.params

/-- pkg/dynamodb `renderPutItem` (INSERT). -/
def renderPutItem (ast : DocumentAST) : Except String QueryResult :=
  let query := jset [] "TableName" (.str ast.target.name)
  match ast.documents with
  | [] => toResult query []
  | doc :: _ =>
    let (item, params) := doc.fields.foldl
      (fun acc fv => (jset acc.1 fv.1.path (.str (":" ++ fv.2.name)),
        acc.2 ++ [fv.2.name]))
      ([], [])
    toResult (jset query "Item" (.obj item)) params

/-- The update-operation loop of pkg/dynamodb `renderUpdateItem`. -/
def renderDynamoUpdateOps (ops : List UpdateOperation) (st : DState)
    (setExprs removeExprs : List String) :
    Except String (List String × List String × DState) :=
  match ops with
  | [] => .ok (setExprs, removeExprs, st)
  | op :: rest =>
    if op.operator = UpdateOp.Set ∨ op.operator = UpdateOp.Inc then
      let (setExprs, st) := op.fields.foldl
        (fun acc fv =>
          let (nameKey, st) := getName acc.2 fv.1.path
          let (valueKey, st) := getValue st fv.2.name
          (acc.1 ++ [if op.operator = UpdateOp.Inc then
              nameKey ++ " = " ++ nameKey ++ " + " ++ valueKey
            else nameKey ++ " = " ++ valueKey], st))
        (setExprs, st)
      renderDynamoUpdateOps rest st setExprs removeExprs
    else if op.operator = UpdateOp.Unset then
      let (removeExprs, st) := op.fields.foldl
        (fun acc fv =>
          let (nameKey, st) := getName acc.2 fv.1.path
          (acc.1 ++ [nameKey], st))
        (removeExprs, st)
      renderDynamoUpdateOps rest st setExprs removeExprs
    else
      .error ("DynamoDB does not support update operator: " ++ op.operator)

/-- The `", "`-separated joins of the update-expression assembly. -/
def joinComma (xs : List String) : String :=
  match xs with
  | [] => ""
  | x :: rest => rest.foldl (fun acc b => acc ++ ", " ++ b) x

/-- pkg/dynamodb `renderUpdateItem`. -/
def renderUpdateItem (ast : DocumentAST) : Except String QueryResult :=
  let query := jset [] "TableName" (.str ast.target.name)
  let st : DState := {}
  match renderDynamoUpdateOps ast.updateOps st [] [] with
  | .error e => .error e
  | .ok (setExprs, removeExprs, st) =>
    let updateExpr :=
      if !setExprs.isEmpty then "SET " ++ joinComma setExprs else ""
    let updateExpr :=
      if !removeExprs.isEmpty then
        (if updateExpr ≠ "" then updateExpr ++ " " else updateExpr) ++
          "REMOVE " ++ joinComma removeExprs
      else updateExpr
    let query := jset query "UpdateExpression" (.str updateExpr)
    let query :=
      if !st.attrNames.isEmpty then
        jset query "ExpressionAttributeNames"
          (.obj (st.attrNames.map fun (kv : String × String) => (kv.1, JValue.str kv.2)))
      else query
    let query :=
      if !st.attrValues.isEmpty then
        jset query "ExpressionAttributeValues"
          (.obj (st.attrValues.map fun (kv : String × String) => (kv.1, JValue.str kv.2)))
      else query
    toResult query st.params

/-- pkg/dynamodb `renderDeleteItem`. -/
def renderDeleteItem (ast : DocumentAST) : Except String QueryResult :=
  toResult (jset [] "TableName" (.str ast.target.name)) []

/-- pkg/dynamodb `SupportsOperation`. -/
def SupportsOperation (op : Operation) : Bool :=
  op = Op.Find || op = Op.FindOne || op = Op.Insert || op = Op.Update ||
  op = Op.Delete

/-- pkg/dynamodb `SupportsFilter`. -/
def SupportsFilter (op : FilterOperator) : Bool :=
  op = FilterOp.EQ || op = FilterOp.NE || op = FilterOp.GT ||
  op = FilterOp.GTE || op = FilterOp.LT || op = FilterOp.LTE ||
  op = FilterOp.Exists

/-- pkg/dynamodb `SupportsUpdate`. -/
def SupportsUpdate (op : UpdateOperator) : Bool :=
  op = UpdateOp.Set || op = UpdateOp.Unset || op = UpdateOp.Inc

/-- pkg/dynamodb `Render`: revalidate, capability check, dispatch. -/
def Render (ast : DocumentAST) : Except String QueryResult :=
  match validate ast with
  | .error e => .error ("invalid AST: " ++ e)
  | .ok _ =>
    if !SupportsOperation ast.operation then
      .error ("DynamoDB does not support operation: " ++ ast.operation)
    else if ast.operation = Op.Find ∨ ast.operation = Op.FindOne then
      renderQuery ast
    else if ast.operation = Op.Insert then renderPutItem ast
    else if ast.operation = Op.Update then renderUpdateItem ast
    else if ast.operation = Op.Delete then renderDeleteItem ast
    else .error ("unsupported operation: " ++ ast.operation)

end dynamodb

/-! ## Concrete inputs used by counterexamples and witnesses -/

/-- A plain equality filter condition on `users.status`. -/
def statusCond : FilterItem :=
  .condition ⟨"status", "users"⟩ FilterOp.EQ ⟨"status"⟩

/-- A FIND AST whose filter group carries an unrecognized logic value. -/
def bogusLogicFindAst : DocumentAST :=
  { operation := Op.Find, target := ⟨"users"⟩,
    filterClause := some (.group "$bogus" []) }

/-- An INSERT AST whose document map is enumerated email-first. -/
def insertAstA : DocumentAST :=
  { operation := Op.Insert, target := ⟨"users"⟩,
    documents := [⟨[(⟨"email", "users"⟩, ⟨"email"⟩), (⟨"name", "users"⟩, ⟨"name"⟩)]⟩] }

/-- The same INSERT AST with the same document map enumerated name-first:
the two field lists are permutations of one another, so they represent the
same Go map value. -/
def insertAstB : DocumentAST :=
  { operation := Op.Insert, target := ⟨"users"⟩,
    documents := [⟨[(⟨"name", "users"⟩, ⟨"name"⟩), (⟨"email", "users"⟩, ⟨"email"⟩)]⟩] }

/-- An AST that fails structural validation (empty target collection). -/
def invalidTargetAst : DocumentAST :=
  { operation := Op.Find, target := ⟨""⟩ }

/-! ## Helper lemmas -/

theorem leadsWith_subset {pat s : List Char} (h : leadsWith pat s = true) :
    ∀ x ∈ pat, x ∈ s := by
  induction pat generalizing s with
  | nil => intro x hx; cases hx
  | cons p ps ih =>
    cases s with
    | nil => simp [leadsWith] at h
    | cons c cs =>
      simp only [leadsWith, Bool.and_eq_true, decide_eq_true_eq] at h
      intro x hx
      rcases List.mem_cons.mp hx with rfl | hx
      · rw [h.1]; exact List.mem_cons_self _ _
      · exact List.mem_cons_of_mem _ (ih h.2 x hx)

theorem goContains_subset {cs pat : List Char} (h : goContains cs pat = true) :
    ∀ x ∈ pat, x ∈ cs := by
  induction cs with
  | nil =>
    cases pat with
    | nil => intro x hx; cases hx
    | cons p ps => simp [goContains, leadsWith] at h
  | cons c rest ih =>
    rw [goContains, Bool.or_eq_true] at h
    rcases h with h | h
    · exact leadsWith_subset h
    · intro x hx; exact List.mem_cons_of_mem _ (ih h x hx)

theorem goLowerChar_upper_toNat {c : Char} (h1 : 'A' ≤ c) (h2 : c ≤ 'Z') :
    (goLowerChar c).toNat = c.toNat + 32 := by
  have ha : 65 ≤ c.toNat := h1
  have hb : c.toNat ≤ 90 := h2
  have hv : (c.toNat + 32).isValidChar := by left; omega
  rw [goLowerChar, if_pos ⟨h1, h2⟩, Char.ofNat, dif_pos hv]
  rfl

theorem mem_of_mem_map_goLowerChar {cs : List Char} {bad : Char}
    (hlt : bad.toNat < 97) (h : bad ∈ cs.map goLowerChar) : bad ∈ cs := by
  obtain ⟨c, hc, hlc⟩ := List.mem_map.mp h
  by_cases hu : 'A' ≤ c ∧ c ≤ 'Z'
  · exfalso
    have := goLowerChar_upper_toNat hu.1 hu.2
    have ha : 65 ≤ c.toNat := hu.1
    rw [hlc] at this
    omega
  · rw [goLowerChar, if_neg hu] at hlc
    rw [← hlc]; exact hc

theorem isFirstIdentChar_imp {c : Char} (h : isFirstIdentChar c = true) :
    isIdentChar c = true := by
  simp only [isFirstIdentChar, Bool.or_eq_true] at h
  simp only [isIdentChar, Bool.or_eq_true]
  tauto

theorem identCharsOk_false_of_mem {cs : List Char} {c : Char} (hc : c ∈ cs)
    (hbad : isIdentChar c = false) : identCharsOk cs = false := by
  cases cs with
  | nil => cases hc
  | cons d rest =>
    rw [identCharsOk]
    rcases List.mem_cons.mp hc with rfl | hc
    · cases hfc : isFirstIdentChar c
      · simp [hfc]
      · rw [isFirstIdentChar_imp hfc] at hbad; cases hbad
    · have : rest.all isIdentChar = false := by
        cases hall : rest.all isIdentChar
        · rfl
        · rw [List.all_eq_true] at hall
          rw [hall c hc] at hbad; cases hbad
      simp [this]

theorem isValidIdentifier_false_of_bad_char {s : String}
    (h : ∃ c ∈ s.data, isIdentChar c = false) : isValidIdentifier s = false := by
  obtain ⟨c, hc, hbad⟩ := h
  have hloop := identCharsOk_false_of_mem hc hbad
  rw [isValidIdentifier]
  simp only [hloop, Bool.not_false, if_true]
  split
  · rfl
  · split
    · rfl
    · rfl

theorem tryP_error_of_invalid {s : String} (h : isValidIdentifier s = false) :
    ∃ e, tryP s = Except.error e :=
  ⟨"invalid parameter name: " ++ s, by rw [tryP, h]; rfl⟩

theorem whitespace_not_identChar {c : Char} (h : c.isWhitespace = true) :
    isIdentChar c = false := by
  simp only [Char.isWhitespace, Bool.or_eq_true, decide_eq_true_eq] at h
  rcases h with ((rfl | rfl) | rfl) | rfl <;> decide

/-- Every entry of the denylist contains a character that survives
`goLowerChar` unchanged and is not an identifier character. -/
theorem every_pattern_has_bad_char :
    ∀ p ∈ suspiciousPatterns, ∃ c ∈ p, c.toNat < 97 ∧ isIdentChar c = false := by
  decide

theorem tryP_error_of_bad_pattern {s : String} {p : List Char} {bad : Char}
    (hmem : bad ∈ p) (hlt : bad.toNat < 97) (hbadid : isIdentChar bad = false)
    (hpat : goContains (s.data.map goLowerChar) p = true) :
    ∃ e, tryP s = Except.error e :=
  tryP_error_of_invalid (isValidIdentifier_false_of_bad_char
    ⟨bad, mem_of_mem_map_goLowerChar hlt (goContains_subset hpat bad hmem), hbadid⟩)

theorem validate_target_required {ast : DocumentAST} (ht : ast.target.name = "") :
    validate ast = Except.error "target collection is required" := by
  simp [validate, ht]

theorem validate_dispatch_updateMany {ast : DocumentAST}
    (h : ast.operation = Op.UpdateMany) (ht : ast.target.name ≠ "") :
    validate ast = ast.validateUpdateMany := by
  simp [validate, ht, h, Op.Find, Op.FindOne, Op.Insert, Op.InsertMany,
    Op.Update, Op.UpdateMany]

theorem validate_dispatch_deleteMany {ast : DocumentAST}
    (h : ast.operation = Op.DeleteMany) (ht : ast.target.name ≠ "") :
    validate ast = ast.validateDeleteMany := by
  simp [validate, ht, h, Op.Find, Op.FindOne, Op.Insert, Op.InsertMany,
    Op.Update, Op.UpdateMany, Op.Delete, Op.DeleteMany]

theorem build_error_of_validate {b : Builder} {e : String} (hberr : b.err = none)
    (hv : validate b.ast = Except.error e) : b.build = Except.error e := by
  simp [Builder.build, hberr, hv]

theorem build_ok_of_validate {b : Builder} (hberr : b.err = none)
    (hv : validate b.ast = Except.ok ()) : b.build = Except.ok b.ast := by
  simp [Builder.build, hberr, hv]

/-! ## Claim theorems -/

/-- C4 counterexample: the denylist holds `"exec "` with a trailing space,
not the bare fragment `"exec"`, so the name `"executor"` — whose lower-cased
form contains `"exec"` — is accepted by `TryP`, refuting the claim as
stated. -/
theorem exec_fragment_accepted_cex :
    tryP "executor" = Except.ok ⟨"executor"⟩ ∧
      goContains ("executor".data.map goLowerChar) ("exec".data) = true := by
  constructor
  · rfl
  · decide

/-- C4 (amended): `TryP` fails for every name containing whitespace, `;`, a
quote character, the runs `--` or `/*`, or (case-insensitively) any entry of
the code's denylist — whose keyword fragments carry a trailing space, e.g.
`"exec "` rather than `"exec"`. -/
theorem param_name_rejection (s : String)
    (h : (∃ c ∈ s.data, c.isWhitespace = true) ∨ ';' ∈ s.data ∨
      squoteChar ∈ s.data ∨ dquoteChar ∈ s.data ∨
      goContains s.data ['-', '-'] = true ∨ goContains s.data ['/', '*'] = true ∨
      (∃ p ∈ suspiciousPatterns, goContains (s.data.map goLowerChar) p = true)) :
    ∃ e, tryP s = Except.error e := by
  rcases h with ⟨c, hc, hw⟩ | h | h | h | h | h | ⟨p, hp, hpat⟩
  · exact tryP_error_of_invalid (isValidIdentifier_false_of_bad_char
      ⟨c, hc, whitespace_not_identChar hw⟩)
  · exact tryP_error_of_invalid (isValidIdentifier_false_of_bad_char
      ⟨';', h, by decide⟩)
  · exact tryP_error_of_invalid (isValidIdentifier_false_of_bad_char
      ⟨squoteChar, h, by decide⟩)
  · exact tryP_error_of_invalid (isValidIdentifier_false_of_bad_char
      ⟨dquoteChar, h, by decide⟩)
  · exact tryP_error_of_invalid (isValidIdentifier_false_of_bad_char
      ⟨'-', goContains_subset h '-' (by decide), by decide⟩)
  · exact tryP_error_of_invalid (isValidIdentifier_false_of_bad_char
      ⟨'/', goContains_subset h '/' (by decide), by decide⟩)
  · obtain ⟨bad, hmem, hlt, hbadid⟩ := every_pattern_has_bad_char p hp
    exact tryP_error_of_bad_pattern hmem hlt hbadid hpat

/-- Witness for `param_name_rejection` at the concrete name `"a;b"`. -/
theorem param_name_rejection_witness : ∃ e, tryP "a;b" = Except.error e :=
  param_name_rejection "a;b" (Or.inr (Or.inl (by decide)))

/-- C1 counterexample: a FIND AST whose filter group carries the
unrecognized logic value `"$bogus"` makes the Firestore renderer return an
error, refuting the claimed silent AND fallback. -/
theorem firestore_unrecognized_logic_errors_cex :
    firestore.Render bogusLogicFindAst =
      Except.error "firestore only supports AND logic in compound queries" := by
  rfl

/-- C1 (amended): for every `FilterGroup` whose logic value is not AND —
unrecognized values included — the Firestore renderer's `buildWheres`
returns the AND-only capability error; there is no silent AND fallback. -/
theorem firestore_nonAND_logic_is_render_error (logic : LogicOperator)
    (cs : List FilterItem) (params : List String) (h : logic ≠ LogicOp.AND) :
    firestore.buildWheres (.group logic cs) params =
      Except.error "firestore only supports AND logic in compound queries" := by
  rw [firestore.buildWheres, if_pos h]

/-- Witness for `firestore_nonAND_logic_is_render_error` at `"$bogus"`. -/
theorem firestore_nonAND_logic_is_render_error_witness :
    firestore.buildWheres (.group "$bogus" []) [] =
      Except.error "firestore only supports AND logic in compound queries" :=
  firestore_nonAND_logic_is_render_error "$bogus" [] [] (by decide)

/-- C2 evidence: `insertAstA` and `insertAstB` hold the same Go document map
(their field lists are permutations, and Go map iteration order is
unspecified and randomized per invocation), yet the two renders return the
RequiredParams sequence in different orders — so two invocations of Render
on the same validated AST need not produce identical parameter-name
sequences.  The structured JSON document is unaffected because
`json.Marshal` sorts map keys. -/
theorem render_params_differ_across_map_orders :
    insertAstA.operation = insertAstB.operation ∧
    insertAstA.target = insertAstB.target ∧
    ((insertAstA.documents.headD ⟨[]⟩).fields).Perm
      ((insertAstB.documents.headD ⟨[]⟩).fields) ∧
    ((mongodb.Render insertAstA).map QueryResult.requiredParams).toOption =
      some ["email", "name"] ∧
    ((mongodb.Render insertAstB).map QueryResult.requiredParams).toOption =
      some ["name", "email"] ∧
    ((mongodb.Render insertAstA).map QueryResult.requiredParams).toOption ≠
      ((mongodb.Render insertAstB).map QueryResult.requiredParams).toOption := by
  refine ⟨rfl, rfl, by decide, rfl, rfl, by decide⟩

/-- C5: a structural-validation failure makes every renderer's Render fail:
each dialect revalidates the AST before dispatching on the operation. -/
theorem render_revalidates_invalid_ast (ast : DocumentAST) (e : String)
    (h : validate ast = Except.error e) :
    (∃ e1, mongodb.Render ast = Except.error e1) ∧
    (∃ e2, firestore.Render ast = Except.error e2) ∧
    (∃ e3, couchdb.Render ast = Except.error e3) ∧
    (∃ e4, dynamodb.Render ast = Except.error e4) := by
  refine ⟨⟨"invalid AST: " ++ e, ?_⟩, ⟨"invalid AST: " ++ e, ?_⟩,
    ⟨"invalid AST: " ++ e, ?_⟩, ⟨"invalid AST: " ++ e, ?_⟩⟩
  · simp only [mongodb.Render, h]
  · simp only [firestore.Render, h]
  · simp only [couchdb.Render, h]
  · simp only [dynamodb.Render, h]

/-- Witness for `render_revalidates_invalid_ast` at an AST with an empty
target collection. -/
theorem render_revalidates_invalid_ast_witness :
    (∃ e1, mongodb.Render invalidTargetAst = Except.error e1) ∧
    (∃ e2, firestore.Render invalidTargetAst = Except.error e2) ∧
    (∃ e3, couchdb.Render invalidTargetAst = Except.error e3) ∧
    (∃ e4, dynamodb.Render invalidTargetAst = Except.error e4) :=
  render_revalidates_invalid_ast invalidTargetAst "target collection is required" rfl

/-- C6: on a builder with no recorded error and no filter yet, two
sequential Filter calls produce an AND group holding exactly the two
filters, with still no recorded error. -/
theorem filter_filter_and_group (b : Builder) (a c : FilterItem)
    (herr : b.err = none) (hfc : b.ast.filterClause = none) :
    ((b.filter a).filter c).ast.filterClause =
      some (.group LogicOp.AND [a, c]) ∧ ((b.filter a).filter c).err = none := by
  simp [Builder.filter, herr, hfc]

/-- Witness for `filter_filter_and_group` on a fresh FIND builder. -/
theorem filter_filter_and_group_witness :
    (((Find ⟨"users"⟩).filter statusCond).filter statusCond).ast.filterClause =
      some (.group LogicOp.AND [statusCond, statusCond]) ∧
    (((Find ⟨"users"⟩).filter statusCond).filter statusCond).err = none :=
  filter_filter_and_group (Find ⟨"users"⟩) statusCond statusCond rfl rfl

/-- C7: on an update builder with no recorded error and no update
operations yet, two sequential Set calls on distinct fields merge into one
$set operation carrying both field entries. -/
theorem set_set_single_operation (b : Builder) (fA fB : Field) (p1 p2 : Param)
    (herr : b.err = none)
    (hop : b.ast.operation = Op.Update ∨ b.ast.operation = Op.UpdateMany)
    (hops : b.ast.updateOps = []) (hne : fA ≠ fB) :
    ((b.set fA p1).set fB p2).ast.updateOps =
      [{ operator := UpdateOp.Set, fields := [(fA, p1), (fB, p2)] }] := by
  rcases hop with h | h <;>
    simp [Builder.set, Builder.isUpdateOperation, herr, h, hops,
      addOrMergeUpdate, mapSetFieldParam, hne]

/-- Witness for `set_set_single_operation` on a fresh UPDATE builder. -/
theorem set_set_single_operation_witness :
    (((Update ⟨"users"⟩).set ⟨"email", "users"⟩ ⟨"e"⟩).set
        ⟨"name", "users"⟩ ⟨"n"⟩).ast.updateOps =
      [{ operator := UpdateOp.Set,
         fields := [(⟨"email", "users"⟩, ⟨"e"⟩), (⟨"name", "users"⟩, ⟨"n"⟩)] }] :=
  set_set_single_operation (Update ⟨"users"⟩) ⟨"email", "users"⟩ ⟨"name", "users"⟩
    ⟨"e"⟩ ⟨"n"⟩ rfl (Or.inl rfl) rfl (by decide)

/-- C8: on a fresh FIND builder with a non-empty target, `Limit (MaxLimit+1)`
makes Build fail while `Limit MaxLimit` lets Build succeed. -/
theorem limit_maxlimit_boundary (c : Collection) (h : c.name ≠ "") :
    (∃ e, ((Find c).limit (MaxLimit + 1)).build = Except.error e) ∧
    ((Find c).limit MaxLimit).build =
      Except.ok ((Find c).limit MaxLimit).ast := by
  constructor
  · exact ⟨_, rfl⟩
  · simp [Find, Builder.limit, Builder.isReadOperation, Builder.build, validate,
      DocumentAST.validateFind, h, MaxLimit]

/-- Witness for `limit_maxlimit_boundary` on the users collection. -/
theorem limit_maxlimit_boundary_witness :
    (∃ e, ((Find ⟨"users"⟩).limit (MaxLimit + 1)).build = Except.error e) ∧
    ((Find ⟨"users"⟩).limit MaxLimit).build =
      Except.ok ((Find ⟨"users"⟩).limit MaxLimit).ast :=
  limit_maxlimit_boundary ⟨"users"⟩ (by decide)

/-- C3 counterexample: an UpdateMany builder with a non-nil FilterClause but
no update operations still fails Build, refuting "with any non-nil
FilterClause Build() succeeds" as stated. -/
theorem updateMany_nonnil_filter_build_cex :
    ((UpdateMany ⟨"users"⟩).filter statusCond).build =
      Except.error "UPDATE_MANY requires at least one update operation" := by
  rfl

/-- C3 (amended): for UpdateMany and DeleteMany builders, Build always
fails while the FilterClause is nil; with a non-nil FilterClause it
succeeds provided the builder carries no recorded error, the target name is
non-empty, and (for UpdateMany) at least one update operation is present. -/
theorem updateMany_deleteMany_filter_guard (b : Builder)
    (hop : b.ast.operation = Op.UpdateMany ∨ b.ast.operation = Op.DeleteMany) :
    (b.ast.filterClause = none → ∃ e, b.build = Except.error e) ∧
    (∀ fc, b.ast.filterClause = some fc → b.err = none →
      b.ast.target.name ≠ "" →
      (b.ast.operation = Op.UpdateMany → b.ast.updateOps ≠ []) →
      b.build = Except.ok b.ast) := by
  constructor
  · intro hfc
    cases hberr : b.err with
    | some e => exact ⟨e, by simp [Builder.build, hberr]⟩
    | none =>
      rcases hop with h | h
      · by_cases ht : b.ast.target.name = ""
        · exact ⟨"target collection is required",
            build_error_of_validate hberr (validate_target_required ht)⟩
        · cases hops : b.ast.updateOps with
          | nil =>
            exact ⟨"UPDATE_MANY requires at least one update operation",
              build_error_of_validate hberr (by
                rw [validate_dispatch_updateMany h ht]
                simp [DocumentAST.validateUpdateMany, hops])⟩
          | cons o rest =>
            exact ⟨"UPDATE_MANY requires a filter for safety",
              build_error_of_validate hberr (by
                rw [validate_dispatch_updateMany h ht]
                simp [DocumentAST.validateUpdateMany, hops, hfc])⟩
      · by_cases ht : b.ast.target.name = ""
        · exact ⟨"target collection is required",
            build_error_of_validate hberr (validate_target_required ht)⟩
        · exact ⟨"DELETE_MANY requires a filter for safety",
            build_error_of_validate hberr (by
              rw [validate_dispatch_deleteMany h ht]
              simp [DocumentAST.validateDeleteMany, hfc])⟩
  · intro fc hfc herr ht hops
    have hv : validate b.ast = Except.ok () := by
      rcases hop with h | h
      · have hne : b.ast.updateOps ≠ [] := hops h
        rw [validate_dispatch_updateMany h ht]
        simp [DocumentAST.validateUpdateMany, hfc, List.length_eq_zero, hne]
      · rw [validate_dispatch_deleteMany h ht]
        simp [DocumentAST.validateDeleteMany, hfc]
    exact build_ok_of_validate herr hv

/-- Witness for `updateMany_deleteMany_filter_guard`: a filterless
UpdateMany builder fails Build; a DeleteMany builder with a filter
succeeds. -/
theorem updateMany_deleteMany_filter_guard_witness :
    (∃ e, (UpdateMany ⟨"users"⟩).build = Except.error e) ∧
    ((DeleteMany ⟨"users"⟩).filter statusCond).build =
      Except.ok ((DeleteMany ⟨"users"⟩).filter statusCond).ast :=
  ⟨(updateMany_deleteMany_filter_guard (UpdateMany ⟨"users"⟩) (Or.inl rfl)).1 rfl,
   (updateMany_deleteMany_filter_guard ((DeleteMany ⟨"users"⟩).filter statusCond)
      (Or.inr rfl)).2 statusCond rfl rfl (by decide)
      (fun hcontra => absurd hcontra (by decide))⟩

/-- C9: neither the DynamoDB nor the CouchDB lowering errors on any logic
kind: DynamoDB renders a group exactly as an AND group for every logic
value other than OR (NOR and NOT included), and CouchDB maps every logic
value other than AND, OR and NOR to `$and`, rendering the group exactly as
an AND group. -/
theorem dynamodb_couchdb_logic_fallback (logic : LogicOperator)
    (cs : List FilterItem) (st : dynamodb.DState) (params : List String) :
    (logic ≠ LogicOp.OR →
      dynamodb.buildFilterExpression (.group logic cs) st =
        dynamodb.buildFilterExpression (.group LogicOp.AND cs) st) ∧
    (logic ≠ LogicOp.AND ∧ logic ≠ LogicOp.OR ∧ logic ≠ LogicOp.NOR →
      couchdb.mapLogic logic = "$and" ∧
      couchdb.buildSelector (.group logic cs) params =
        couchdb.buildSelector (.group LogicOp.AND cs) params) := by
  constructor
  · intro h
    cases cs with
    | nil => rfl
    | cons c rest =>
      simp only [dynamodb.buildFilterExpression]
      cases hres : dynamodb.buildFilterExpressionList (c :: rest) st [] with
      | error e => simp [hres]
      | ok pr =>
        simp only [hres]
        rw [if_neg h, if_neg (by decide : ¬(LogicOp.AND = LogicOp.OR))]
  · rintro ⟨h1, h2, h3⟩
    have hm : couchdb.mapLogic logic = "$and" := by
      simp [couchdb.mapLogic, h1, h2, h3]
    refine ⟨hm, ?_⟩
    simp only [couchdb.buildSelector]
    cases hres : couchdb.buildSelectorList cs params [] with
    | error e => simp [hres]
    | ok pr =>
      have hA : couchdb.mapLogic LogicOp.AND = "$and" := rfl
      simp [hres, hm, hA]

/-- Witness for `dynamodb_couchdb_logic_fallback` at the NOT logic value. -/
theorem dynamodb_couchdb_logic_fallback_witness :
    (dynamodb.buildFilterExpression (.group LogicOp.NOT [statusCond]) {} =
      dynamodb.buildFilterExpression (.group LogicOp.AND [statusCond]) {}) ∧
    (couchdb.mapLogic LogicOp.NOT = "$and" ∧
      couchdb.buildSelector (.group LogicOp.NOT [statusCond]) [] =
        couchdb.buildSelector (.group LogicOp.AND [statusCond]) []) :=
  ⟨(dynamodb_couchdb_logic_fallback LogicOp.NOT [statusCond] {} []).1 (by decide),
   (dynamodb_couchdb_logic_fallback LogicOp.NOT [statusCond] {} []).2
     ⟨by decide, by decide, by decide⟩⟩

/-- C10: Filter carries no operation-compatibility guard: an Insert builder
with one document accepts a Filter with no recorded error, Build succeeds,
and the MongoDB insert rendering silently omits the FilterClause — the
output document's keys are exactly collection, operation and document. -/
theorem insert_filter_unguarded (c : Collection) (doc : Document)
    (f : FilterItem) (h : c.name ≠ "") :
    (((Insert c).document doc).filter f).err = none ∧
    (((Insert c).document doc).filter f).build =
      Except.ok (((Insert c).document doc).filter f).ast ∧
    (∃ r, mongodb.Render ((((Insert c).document doc).filter f).ast) =
      Except.ok r ∧ r.json.objKeys = ["collection", "operation", "document"]) := by
  have hb : ((Insert c).document doc).filter f =
      { ast := { operation := Op.Insert, target := c,
                 documents := [doc],
                 filterClause := some f },
        err := none } := by
    simp [Insert, Builder.document, Builder.filter]
  rw [hb]
  have hv : validate { operation := Op.Insert, target := c,
                       documents := [doc],
                       filterClause := some f } = Except.ok () := by
    simp [validate, h, DocumentAST.validateInsert, Op.Find, Op.FindOne, Op.Insert]
  refine ⟨rfl, by simp [Builder.build, hv], ?_⟩
  simp only [mongodb.Render, hv]
  cases hrd : mongodb.renderDocument doc [] with
  | mk d ps =>
    simp only [mongodb.renderInsert, hrd, mongodb.toResult]
    rw [if_neg (by decide : ¬(Op.Insert = Op.Find ∨ Op.Insert = Op.FindOne))]
    refine ⟨_, rfl, ?_⟩
    simp [jset, JValue.objKeys]

/-- Witness for `insert_filter_unguarded` on a one-field users document. -/
theorem insert_filter_unguarded_witness :
    (((Insert ⟨"users"⟩).document ⟨[(⟨"email", "users"⟩, ⟨"email"⟩)]⟩).filter
        statusCond).err = none ∧
    (((Insert ⟨"users"⟩).document ⟨[(⟨"email", "users"⟩, ⟨"email"⟩)]⟩).filter
        statusCond).build =
      Except.ok (((Insert ⟨"users"⟩).document
        ⟨[(⟨"email", "users"⟩, ⟨"email"⟩)]⟩).filter statusCond).ast ∧
    (∃ r, mongodb.Render ((((Insert ⟨"users"⟩).document
        ⟨[(⟨"email", "users"⟩, ⟨"email"⟩)]⟩).filter statusCond).ast) =
      Except.ok r ∧ r.json.objKeys = ["collection", "operation", "document"]) :=
  insert_filter_unguarded ⟨"users"⟩ ⟨[(⟨"email", "users"⟩, ⟨"email"⟩)]⟩
    statusCond (by decide)

end Docql
